import Mathlib

/-!
Shallow embedding of `src/dist/clipboardmanager.js` (class `ClipboardManager`).

The JS handlers `OnCopy`, `OnCut`, `OnPaste` read the selection manager
(`FindActiveCopyable` / `FindActiveCuttable` / `FindActivePasteContainer`),
read and write `clipboardStore.Data`, delegate to a target
(`HandleCopy` / `HandleCut` / `HandlePaste`) and may call
`event.preventDefault()` or throw.  We model each handler as a pure
function of the selection-manager answer, the prior store value and the
event, returning either an error paired with the coordinator state at the
moment of the throw, or the final coordinator state.  The state records
the store cell (`Data`), the delegation call actually made, and whether
`preventDefault` was called.
-/

namespace Clipboard

/-- The event-type constants from `clipboarddict.js` (`ClipboardDict.Copy`,
`ClipboardDict.Cut`, `ClipboardDict.Paste`).  Only their distinctness
matters to the manager. -/
inductive ClipboardDict where
  | Copy
  | Cut
  | Paste
deriving DecidableEq, Repr

/-- A browser clipboard event as consumed by the handlers: its `type`,
its `isTrusted` flag and its `clipboardData` payload (type `α`). -/
structure ClipboardEvent (α : Type) where
  type : ClipboardDict
  isTrusted : Bool
  clipboardData : α
deriving DecidableEq, Repr

/-- The two errors thrown by the handlers: the kind-mismatch error
(`Cannot perform ... action on ...`, naming the event's type) and the
trust error (`All external clipboard events must be trusted.`). -/
inductive ClipboardErr where
  | protocolMismatch (eventType : ClipboardDict)
  | untrustedEvent
deriving DecidableEq, Repr

/-- Observable coordinator state of one handler invocation:
`Data` is `clipboardStore.Data`, `delegated` records the `Handle*` call
made on the selected target (target and payload), and `defaultPrevented`
records whether `event.preventDefault()` ran. -/
structure CoordState (α τ : Type) where
  Data : Option α
  delegated : Option (τ × α)
  defaultPrevented : Bool
deriving DecidableEq, Repr

/-- State at handler entry: store as given, nothing delegated yet,
default not prevented. -/
def initState {α τ : Type} (store : Option α) : CoordState α τ :=
  ⟨store, none, false⟩

/-- `OnCopy` (clipboardmanager.js lines 46-63): kind check, trust check,
then either clear the store (no copyable target) or delegate
`HandleCopy(event.clipboardData)` and `preventDefault()`. -/
def OnCopy {α τ : Type} (findActiveCopyable : Option τ) (store : Option α)
    (event : ClipboardEvent α) :
    Except (ClipboardErr × CoordState α τ) (CoordState α τ) :=
  if event.type ≠ ClipboardDict.Copy then
    Except.error (ClipboardErr.protocolMismatch event.type, initState store)
  else if !event.isTrusted then
    Except.error (ClipboardErr.untrustedEvent, initState store)
  else
    match findActiveCopyable with
    | none => Except.ok ⟨none, none, false⟩
    | some potentialCopy =>
        Except.ok ⟨store, some (potentialCopy, event.clipboardData), true⟩

/-- `OnCut` (clipboardmanager.js lines 80-93): kind check, trust check,
then either clear the store (no cuttable target) or delegate
`HandleCut(event.clipboardData)`; no `preventDefault()`. -/
def OnCut {α τ : Type} (findActiveCuttable : Option τ) (store : Option α)
    (event : ClipboardEvent α) :
    Except (ClipboardErr × CoordState α τ) (CoordState α τ) :=
  if event.type ≠ ClipboardDict.Cut then
    Except.error (ClipboardErr.protocolMismatch event.type, initState store)
  else if !event.isTrusted then
    Except.error (ClipboardErr.untrustedEvent, initState store)
  else
    match findActiveCuttable with
    | none => Except.ok ⟨none, none, false⟩
    | some potentialCut =>
        Except.ok ⟨store, some (potentialCut, event.clipboardData), false⟩

/-- `OnPaste` (clipboardmanager.js lines 116-136): kind check, trust
check, return unchanged if no paste container; otherwise pick
`event.clipboardData` and `preventDefault()` when the store is null,
else the store value without `preventDefault()`, and delegate
`HandlePaste(dataToUse)`. -/
def OnPaste {α τ : Type} (findActivePasteContainer : Option τ)
    (store : Option α) (event : ClipboardEvent α) :
    Except (ClipboardErr × CoordState α τ) (CoordState α τ) :=
  if event.type ≠ ClipboardDict.Paste then
    Except.error (ClipboardErr.protocolMismatch event.type, initState store)
  else if !event.isTrusted then
    Except.error (ClipboardErr.untrustedEvent, initState store)
  else
    match findActivePasteContainer with
    | none => Except.ok (initState store)
    | some pasteContainer =>
        match store with
        | none => Except.ok ⟨store, some (pasteContainer, event.clipboardData), true⟩
        | some v => Except.ok ⟨store, some (pasteContainer, v), false⟩

/-- `OnClipboardChange` (clipboardmanager.js lines 15-18): unconditionally
overwrite `clipboardStore.Data` with `event.clipboardData`. -/
def OnClipboardChange {α : Type} (store : Option α) (eventClipboardData : α) :
    Option α :=
  some eventClipboardData

/-- C1: for a trusted Paste event with an active paste container, if the
store is null the handler delegates the event's external buffer data and
prevents default; if the store holds `v`, it delegates `v` — not the
external data, even when the two differ — and does not prevent default. -/
theorem OnPaste_data_source {α τ : Type} (container : τ) (event : ClipboardEvent α)
    (hk : event.type = ClipboardDict.Paste) (ht : event.isTrusted = true) :
    OnPaste (some container) (none : Option α) event =
      Except.ok ⟨none, some (container, event.clipboardData), true⟩ ∧
    ∀ v : α, OnPaste (some container) (some v) event =
      Except.ok ⟨some v, some (container, v), false⟩ := by
  constructor
  · simp [OnPaste, hk, ht]
  · intro v
    simp [OnPaste, hk, ht]

/-- Witness for C1: concrete trusted Paste event with external data `5`
and store holding `7`; the container receives `7` and default proceeds. -/
theorem OnPaste_data_source_witness :
    OnPaste (some (0 : Nat)) (some (7 : Nat)) ⟨ClipboardDict.Paste, true, 5⟩ =
      Except.ok ⟨some 7, some (0, 7), false⟩ :=
  (OnPaste_data_source 0 ⟨ClipboardDict.Paste, true, 5⟩ rfl rfl).2 7

/-- C2 counterexample: an untrusted event of kind Cut delivered to
`OnCopy` fails with the kind-mismatch error, not the untrusted-event
error, so "fails with UntrustedEvent regardless of kind" is false. -/
theorem OnCopy_untrusted_mismatched_kind :
    OnCopy (none : Option Nat) (none : Option Nat) ⟨ClipboardDict.Cut, false, 0⟩ =
      Except.error (ClipboardErr.protocolMismatch ClipboardDict.Cut,
        initState none) ∧
    ClipboardErr.protocolMismatch ClipboardDict.Cut ≠ ClipboardErr.untrustedEvent := by
  constructor
  · rfl
  · decide

/-- C2 (amended): for every untrusted event whose kind matches the
handler it is delivered to, each of the three handlers fails with the
untrusted-event error and the store cell is unchanged. -/
theorem untrusted_event_rejected {α τ : Type} (sel : Option τ) (store : Option α)
    (event : ClipboardEvent α) (ht : event.isTrusted = false) :
    (event.type = ClipboardDict.Copy →
      OnCopy sel store event =
        Except.error (ClipboardErr.untrustedEvent, initState store)) ∧
    (event.type = ClipboardDict.Cut →
      OnCut sel store event =
        Except.error (ClipboardErr.untrustedEvent, initState store)) ∧
    (event.type = ClipboardDict.Paste →
      OnPaste sel store event =
        Except.error (ClipboardErr.untrustedEvent, initState store)) := by
  refine ⟨fun hk => ?_, fun hk => ?_, fun hk => ?_⟩
  · simp [OnCopy, hk, ht]
  · simp [OnCut, hk, ht]
  · simp [OnPaste, hk, ht]

/-- Witness for C2 (amended): a concrete untrusted Copy event is rejected
by `OnCopy` with the untrusted-event error and the store kept at `3`. -/
theorem untrusted_event_rejected_witness :
    OnCopy (some (0 : Nat)) (some (3 : Nat)) ⟨ClipboardDict.Copy, false, 1⟩ =
      Except.error (ClipboardErr.untrustedEvent, initState (some 3)) :=
  (untrusted_event_rejected (some 0) (some 3) ⟨ClipboardDict.Copy, false, 1⟩ rfl).1 rfl

/-- C3: the kind check precedes the trust check — an event that both
mismatches the handler's kind and is untrusted draws the kind-mismatch
error, never the untrusted-event error. -/
theorem kind_checked_before_trust {α τ : Type} (sel : Option τ) (store : Option α)
    (event : ClipboardEvent α) (ht : event.isTrusted = false) :
    (event.type ≠ ClipboardDict.Copy →
      OnCopy sel store event =
        Except.error (ClipboardErr.protocolMismatch event.type, initState store)) ∧
    (event.type ≠ ClipboardDict.Cut →
      OnCut sel store event =
        Except.error (ClipboardErr.protocolMismatch event.type, initState store)) ∧
    (event.type ≠ ClipboardDict.Paste →
      OnPaste sel store event =
        Except.error (ClipboardErr.protocolMismatch event.type, initState store)) := by
  refine ⟨fun hk => ?_, fun hk => ?_, fun hk => ?_⟩
  · simp [OnCopy, hk]
  · simp [OnCut, hk]
  · simp [OnPaste, hk]

/-- Witness for C3: an untrusted Paste event delivered to `OnCopy` draws
the mismatch error naming Paste. -/
theorem kind_checked_before_trust_witness :
    OnCopy (some (0 : Nat)) (some (3 : Nat)) ⟨ClipboardDict.Paste, false, 1⟩ =
      Except.error (ClipboardErr.protocolMismatch ClipboardDict.Paste,
        initState (some 3)) :=
  (kind_checked_before_trust (some 0) (some 3)
    ⟨ClipboardDict.Paste, false, 1⟩ rfl).1 (by decide)

/-- C4: an event whose kind mismatches the handler draws the
kind-mismatch error naming the event's kind, with the store cell
unchanged (the error state is the entry state). -/
theorem kind_mismatch_rejected {α τ : Type} (sel : Option τ) (store : Option α)
    (event : ClipboardEvent α) :
    (event.type ≠ ClipboardDict.Copy →
      OnCopy sel store event =
        Except.error (ClipboardErr.protocolMismatch event.type, initState store)) ∧
    (event.type ≠ ClipboardDict.Cut →
      OnCut sel store event =
        Except.error (ClipboardErr.protocolMismatch event.type, initState store)) ∧
    (event.type ≠ ClipboardDict.Paste →
      OnPaste sel store event =
        Except.error (ClipboardErr.protocolMismatch event.type, initState store)) := by
  refine ⟨fun hk => ?_, fun hk => ?_, fun hk => ?_⟩
  · simp [OnCopy, hk]
  · simp [OnCut, hk]
  · simp [OnPaste, hk]

/-- Witness for C4: a trusted Cut event delivered to `OnCopy` draws the
mismatch error naming Cut, store kept at `9`. -/
theorem kind_mismatch_rejected_witness :
    OnCopy (some (0 : Nat)) (some (9 : Nat)) ⟨ClipboardDict.Cut, true, 1⟩ =
      Except.error (ClipboardErr.protocolMismatch ClipboardDict.Cut,
        initState (some 9)) :=
  (kind_mismatch_rejected (some 0) (some 9)
    ⟨ClipboardDict.Cut, true, 1⟩).1 (by decide)

/-- C5: a trusted Copy or Cut event finding no active target clears the
store to null regardless of its prior value, delegates to nothing, and
does not prevent default. -/
theorem no_target_clears_store {α τ : Type} (store : Option α)
    (event : ClipboardEvent α) (ht : event.isTrusted = true) :
    (event.type = ClipboardDict.Copy →
      OnCopy (none : Option τ) store event = Except.ok ⟨none, none, false⟩) ∧
    (event.type = ClipboardDict.Cut →
      OnCut (none : Option τ) store event = Except.ok ⟨none, none, false⟩) := by
  refine ⟨fun hk => ?_, fun hk => ?_⟩
  · simp [OnCopy, hk, ht]
  · simp [OnCut, hk, ht]

/-- Witness for C5: a trusted Copy event with no copyable target clears a
store previously holding `4`. -/
theorem no_target_clears_store_witness :
    OnCopy (none : Option Nat) (some (4 : Nat)) ⟨ClipboardDict.Copy, true, 1⟩ =
      Except.ok ⟨none, none, false⟩ :=
  (no_target_clears_store (some 4) ⟨ClipboardDict.Copy, true, 1⟩ rfl).1 rfl

/-- C6: a trusted Copy event with an active copyable target delegates the
event's external buffer data to that target's handle-copy operation and
prevents the default copy behavior. -/
theorem copy_delegates_and_prevents {α τ : Type} (t : τ) (store : Option α)
    (event : ClipboardEvent α) (hk : event.type = ClipboardDict.Copy)
    (ht : event.isTrusted = true) :
    OnCopy (some t) store event =
      Except.ok ⟨store, some (t, event.clipboardData), true⟩ := by
  simp [OnCopy, hk, ht]

/-- Witness for C6: a concrete trusted Copy with target `2` delegates
external data `8` and prevents default. -/
theorem copy_delegates_and_prevents_witness :
    OnCopy (some (2 : Nat)) (some (4 : Nat)) ⟨ClipboardDict.Copy, true, 8⟩ =
      Except.ok ⟨some 4, some (2, 8), true⟩ :=
  copy_delegates_and_prevents 2 (some 4) ⟨ClipboardDict.Copy, true, 8⟩ rfl rfl

/-- C7: a trusted Cut event with an active cuttable target delegates the
event's external buffer data to that target's handle-cut operation and
does NOT prevent default behavior. -/
theorem cut_delegates_no_prevent {α τ : Type} (t : τ) (store : Option α)
    (event : ClipboardEvent α) (hk : event.type = ClipboardDict.Cut)
    (ht : event.isTrusted = true) :
    OnCut (some t) store event =
      Except.ok ⟨store, some (t, event.clipboardData), false⟩ := by
  simp [OnCut, hk, ht]

/-- Witness for C7: a concrete trusted Cut with target `2` delegates
external data `8` and leaves default behavior alone. -/
theorem cut_delegates_no_prevent_witness :
    OnCut (some (2 : Nat)) (some (4 : Nat)) ⟨ClipboardDict.Cut, true, 8⟩ =
      Except.ok ⟨some 4, some (2, 8), false⟩ :=
  cut_delegates_no_prevent 2 (some 4) ⟨ClipboardDict.Cut, true, 8⟩ rfl rfl

/-- C8: a trusted Paste event with no active paste container returns the
entry state unchanged: no delegation, no prevent-default, store intact. -/
theorem paste_no_container_no_action {α τ : Type} (store : Option α)
    (event : ClipboardEvent α) (hk : event.type = ClipboardDict.Paste)
    (ht : event.isTrusted = true) :
    OnPaste (none : Option τ) store event = Except.ok ⟨store, none, false⟩ := by
  simp [OnPaste, hk, ht, initState]

/-- Witness for C8: a concrete trusted Paste with no container leaves the
store at `6` with nothing delegated. -/
theorem paste_no_container_no_action_witness :
    OnPaste (none : Option Nat) (some (6 : Nat)) ⟨ClipboardDict.Paste, true, 1⟩ =
      Except.ok ⟨some 6, none, false⟩ :=
  paste_no_container_no_action (some 6) ⟨ClipboardDict.Paste, true, 1⟩ rfl rfl

/-- C9: whenever a handler throws, the state carried at the throw has
`defaultPrevented = false`: errors are raised strictly before any
prevent-default decision. -/
theorem error_means_no_prevent {α τ : Type} (sel : Option τ) (store : Option α)
    (event : ClipboardEvent α) (e : ClipboardErr) (s : CoordState α τ)
    (h : OnCopy sel store event = Except.error (e, s) ∨
         OnCut sel store event = Except.error (e, s) ∨
         OnPaste sel store event = Except.error (e, s)) :
    s.defaultPrevented = false := by
  have hstate : s = initState store := by
    rcases h with h | h | h
    · unfold OnCopy at h
      split at h
      · cases h; rfl
      · split at h
        · cases h; rfl
        · split at h <;> cases h
    · unfold OnCut at h
      split at h
      · cases h; rfl
      · split at h
        · cases h; rfl
        · split at h <;> cases h
    · unfold OnPaste at h
      split at h
      · cases h; rfl
      · split at h
        · cases h; rfl
        · split at h
          · cases h
          · split at h <;> cases h
  subst hstate
  rfl

/-- Witness for C9: the state carried by the error thrown on a concrete
untrusted Copy event has default not prevented. -/
theorem error_means_no_prevent_witness :
    (initState (some 3) : CoordState Nat Nat).defaultPrevented = false :=
  error_means_no_prevent (some 0) (some 3) ⟨ClipboardDict.Copy, false, 1⟩
    ClipboardErr.untrustedEvent (initState (some 3)) (Or.inl rfl)

/-- C10: `OnClipboardChange` unconditionally overwrites the store with
the event's data, and the overwrite is idempotent: applying it twice with
the same data yields the same store as applying it once. -/
theorem OnClipboardChange_overwrite_idempotent {α : Type} (store : Option α)
    (d : α) :
    OnClipboardChange store d = some d ∧
    OnClipboardChange (OnClipboardChange store d) d = OnClipboardChange store d :=
  ⟨rfl, rfl⟩

end Clipboard
